import Mathlib

/-!
Verification of `src/password_generator.py` (password generation and
strength scoring).

Modelling conventions:
* A Python `str` is a `List Char`; all passwords generated by this program
  are ASCII, and the character-classification predicates (`str.isupper`,
  `str.islower`, `str.isdigit`, `c in string.punctuation`) are embedded
  with their ASCII semantics.
* Python's `int` is `Int` where negative values matter (the requested
  length), `Nat` elsewhere.
* `secrets.choice(charset)` is embedded by an explicit oracle
  `draw : Nat → Nat`: draw number `i` selects index `draw i % charset.length`
  of the pool.  Every property proved below holds for every oracle.
* Fallible code returns `Except Err`; the two `ValueError`s of the source
  are the two constructors of `Err`.
* `math.log2` is real-valued; the source's comparisons
  `length * log2(charset_size) >= T` are embedded in exact arithmetic as
  `2 ^ T ≤ charset_size ^ length`, and the equivalence with the
  `Real.logb`-based formulation is proved (`entropy_threshold_iff`).
-/

namespace PasswordGenerator

/-- The two `ValueError` kinds raised by the source: length below 1
(`generate_password`, line 65) and no character class selected
(`get_character_set`, line 41). -/
inductive Err where
  | invalidLength
  | invalidSelection
  deriving DecidableEq, Repr

/-- `string.ascii_uppercase`: the 26 characters A–Z (ASCII 65–90). -/
def ascii_uppercase : List Char := (List.range 26).map (fun i => Char.ofNat (65 + i))

/-- `string.ascii_lowercase`: the 26 characters a–z (ASCII 97–122). -/
def ascii_lowercase : List Char := (List.range 26).map (fun i => Char.ofNat (97 + i))

/-- `string.digits`: the 10 characters 0–9 (ASCII 48–57). -/
def digits : List Char := (List.range 10).map (fun i => Char.ofNat (48 + i))

/-- `string.punctuation`: the 32 ASCII punctuation characters, in ASCII
order (codes 33–47, 58–64, 91–96, 123–126). -/
def punctuationSet : List Char :=
  ((List.range 15).map (fun i => 33 + i) ++ (List.range 7).map (fun i => 58 + i) ++
    (List.range 6).map (fun i => 91 + i) ++ (List.range 4).map (fun i => 123 + i)).map
    Char.ofNat

/-- The pool built by `get_character_set` (lines 30–39): the selected
classes' characters concatenated in the fixed order upper, lower,
digits, symbols. -/
def pool (use_upper use_lower use_digits use_symbols : Bool) : List Char :=
  (if use_upper then ascii_uppercase else []) ++
    (if use_lower then ascii_lowercase else []) ++
      (if use_digits then digits else []) ++
        (if use_symbols then punctuationSet else [])

/-- `get_character_set` (lines 14–44): returns the pool, or raises when
it is empty. -/
def get_character_set (use_upper use_lower use_digits use_symbols : Bool) :
    Except Err (List Char) :=
  if pool use_upper use_lower use_digits use_symbols = [] then
    Except.error Err.invalidSelection
  else
    Except.ok (pool use_upper use_lower use_digits use_symbols)

/-- `generate_password` (lines 47–73): rejects `length < 1`, builds the
pool, then draws `length` characters.  `secrets.choice` is embedded via
the oracle `draw`; the default of `getD` is never reached because the
pool is non-empty. -/
def generate_password (length : Int) (use_upper use_lower use_digits use_symbols : Bool)
    (draw : Nat → Nat) : Except Err (List Char) :=
  if length < 1 then Except.error Err.invalidLength
  else
    match get_character_set use_upper use_lower use_digits use_symbols with
    | Except.error e => Except.error e
    | Except.ok charset =>
        Except.ok ((List.range length.toNat).map
          (fun i => charset.getD (draw i % charset.length) 'A'))

/-- Python `c.isupper()` on ASCII input: `c` is in A–Z. -/
def isupper (c : Char) : Bool := 65 ≤ c.toNat && c.toNat ≤ 90

/-- Python `c.islower()` on ASCII input: `c` is in a–z. -/
def islower (c : Char) : Bool := 97 ≤ c.toNat && c.toNat ≤ 122

/-- Python `c.isdigit()` on ASCII input: `c` is in 0–9. -/
def isdigit (c : Char) : Bool := 48 ≤ c.toNat && c.toNat ≤ 57

/-- Line 104: `any(c.isupper() for c in password)`. -/
def has_upper (password : List Char) : Bool := password.any isupper

/-- Line 105: `any(c.islower() for c in password)`. -/
def has_lower (password : List Char) : Bool := password.any islower

/-- Line 106: `any(c.isdigit() for c in password)`. -/
def has_digit (password : List Char) : Bool := password.any isdigit

/-- Line 107: `any(c in string.punctuation for c in password)`. -/
def has_symbol (password : List Char) : Bool :=
  password.any (fun c => punctuationSet.contains c)

/-- Line 109: `sum([has_upper, has_lower, has_digit, has_symbol])`. -/
def variety_count (password : List Char) : Nat :=
  (if has_upper password then 1 else 0) + (if has_lower password then 1 else 0) +
    (if has_digit password then 1 else 0) + (if has_symbol password then 1 else 0)

/-- Lines 91–101: the points added for the password's length. -/
def lengthScore (length : Nat) : Nat :=
  if 16 ≤ length then 40 else if 12 ≤ length then 30 else if 8 ≤ length then 20 else 10

/-- Lines 91–101: the feedback appended for the password's length. -/
def lengthFeedback (length : Nat) : List String :=
  if 16 ≤ length then []
  else if 12 ≤ length then ["より長いパスワード(16文字以上)を推奨します"]
  else if 8 ≤ length then ["より長いパスワード(12文字以上)を推奨します"]
  else ["パスワードが短すぎます(最低8文字推奨)"]

/-- Lines 111–121: the points added for character-class variety. -/
def varietyScore (password : List Char) : Nat :=
  if variety_count password = 4 then 40
  else if variety_count password = 3 then 30
  else if variety_count password = 2 then 15
  else 5

/-- Lines 111–121: the feedback appended for character-class variety. -/
def varietyFeedback (password : List Char) : List String :=
  if variety_count password = 4 then []
  else if variety_count password = 3 then ["記号を追加するとさらに強化されます"]
  else if variety_count password = 2 then ["より多くの文字種を使用してください"]
  else ["文字種が少なすぎます"]

/-- Lines 124–132: the effective charset size, from the classes present
in the password itself. -/
def charset_size (password : List Char) : Nat :=
  (if has_upper password then 26 else 0) + (if has_lower password then 26 else 0) +
    (if has_digit password then 10 else 0) + (if has_symbol password then 32 else 0)

/-- Lines 134–144: the points added for the entropy estimate
`length * math.log2(charset_size)`, 0 when the charset is empty.  The
real-valued comparison `T ≤ length * log2(cs)` is encoded exactly as
`2 ^ T ≤ cs ^ length` (see `entropy_threshold_iff`). -/
def entropyScore (length cs : Nat) : Nat :=
  if cs = 0 then 0
  else if 2 ^ 80 ≤ cs ^ length then 20
  else if 2 ^ 60 ≤ cs ^ length then 15
  else if 2 ^ 40 ≤ cs ^ length then 10
  else 5

/-- Lines 86–145: the total score. -/
def totalScore (password : List Char) : Nat :=
  lengthScore password.length + varietyScore password +
    entropyScore password.length (charset_size password)

/-- Lines 147–154: the level determined from the score. -/
def levelOf (score : Nat) : String :=
  if 80 ≤ score then "非常に強い"
  else if 60 ≤ score then "強い"
  else if 40 ≤ score then "中程度"
  else "弱い"

/-- Lines 87–121: the accumulated feedback list, length feedback first,
then variety feedback (the entropy block appends none). -/
def feedbackList (password : List Char) : List String :=
  lengthFeedback password.length ++ varietyFeedback password

/-- Line 156: join with " / ", or the good-password message when the
list is empty. -/
def feedbackText (password : List Char) : String :=
  if feedbackList password = [] then "良好なパスワードです"
  else String.intercalate " / " (feedbackList password)

/-- `evaluate_password_strength` (lines 76–158): returns
(level, score, feedback). -/
def evaluate_password_strength (password : List Char) : String × Nat × String :=
  (levelOf (totalScore password), totalScore password, feedbackText password)

/-! ### Helper lemmas -/

lemma pool_eq_nil_iff (u l d s : Bool) :
    pool u l d s = [] ↔ u = false ∧ l = false ∧ d = false ∧ s = false := by
  cases u <;> cases l <;> cases d <;> cases s <;> decide

lemma pool_ne_nil (u l d s : Bool) (h : (u || l || d || s) = true) :
    pool u l d s ≠ [] := by
  cases u <;> cases l <;> cases d <;> cases s <;> revert h <;> decide

lemma mem_pool (c : Char) (u l d s : Bool) (h : c ∈ pool u l d s) :
    (u = true ∧ c ∈ ascii_uppercase) ∨ (l = true ∧ c ∈ ascii_lowercase) ∨
      (d = true ∧ c ∈ digits) ∨ (s = true ∧ c ∈ punctuationSet) := by
  cases u <;> cases l <;> cases d <;> cases s <;>
    simp_all [pool, List.mem_append]

lemma lengthScore_bounds (n : Nat) : 10 ≤ lengthScore n ∧ lengthScore n ≤ 40 := by
  unfold lengthScore; split_ifs <;> omega

lemma varietyScore_bounds (p : List Char) : 5 ≤ varietyScore p ∧ varietyScore p ≤ 40 := by
  unfold varietyScore; split_ifs <;> omega

lemma entropyScore_bounds (n cs : Nat) : entropyScore n cs ≤ 20 := by
  unfold entropyScore; split_ifs <;> omega

lemma charset_size_ten_le (p : List Char) (h : charset_size p ≠ 0) :
    10 ≤ charset_size p := by
  unfold charset_size at h ⊢; split_ifs at h ⊢ <;> omega

/-- The source compares `length * math.log2(charset_size)` against a
threshold `T`; for an integer charset size of at least 2 this real
comparison is equivalent to the exact integer comparison
`2 ^ T ≤ charset_size ^ length`. -/
lemma entropy_threshold_iff (cs len T : Nat) (hcs : 2 ≤ cs) :
    ((T : ℝ) ≤ (len : ℝ) * Real.logb 2 (cs : ℝ)) ↔ 2 ^ T ≤ cs ^ len := by
  have hb : (1 : ℝ) < 2 := one_lt_two
  have hcs0 : (0 : ℝ) < (cs : ℝ) := by exact_mod_cast (by omega : 0 < cs)
  have hx : (0 : ℝ) < (cs : ℝ) ^ len := pow_pos hcs0 len
  rw [← Real.logb_pow, Real.le_logb_iff_rpow_le hb hx, Real.rpow_natCast]
  exact_mod_cast Iff.rfl

/-! ### Claim theorems -/

/-- C1: for every selection with at least one class enabled, every length
≥ 1 and every random oracle, `generate_password` succeeds with exactly
`length` characters, each belonging to a selected class's character set. -/
theorem C1_generate_password_ok (length : Int) (u l d s : Bool) (draw : Nat → Nat)
    (hlen : 1 ≤ length) (hsel : (u || l || d || s) = true) :
    ∃ pw, generate_password length u l d s draw = Except.ok pw ∧
      (pw.length : Int) = length ∧
      ∀ c ∈ pw, (u = true ∧ c ∈ ascii_uppercase) ∨ (l = true ∧ c ∈ ascii_lowercase) ∨
        (d = true ∧ c ∈ digits) ∨ (s = true ∧ c ∈ punctuationSet) := by
  have hnl : ¬ length < 1 := by omega
  have hpool : pool u l d s ≠ [] := pool_ne_nil u l d s hsel
  have hpos : 0 < (pool u l d s).length := List.length_pos.mpr hpool
  refine ⟨(List.range length.toNat).map
      (fun i => (pool u l d s).getD (draw i % (pool u l d s).length) 'A'), ?_, ?_, ?_⟩
  · simp [generate_password, hnl, get_character_set, hpool]
  · simp [List.length_map, List.length_range, Int.toNat_of_nonneg (by omega : 0 ≤ length)]
  · intro c hc
    simp only [List.mem_map, List.mem_range] at hc
    obtain ⟨i, _, hi⟩ := hc
    have hlt : draw i % (pool u l d s).length < (pool u l d s).length :=
      Nat.mod_lt _ hpos
    have hmem : c ∈ pool u l d s := by
      rw [← hi, List.getD_eq_getElem _ _ hlt]
      exact List.getElem_mem hlt
    exact mem_pool c u l d s hmem

/-- C1 witness: length 1, uppercase only, constant oracle. -/
theorem C1_witness :
    ∃ pw, generate_password 1 true false false false (fun _ => 0) = Except.ok pw ∧
      (pw.length : Int) = 1 ∧
      ∀ c ∈ pw, (true = true ∧ c ∈ ascii_uppercase) ∨ (false = true ∧ c ∈ ascii_lowercase) ∨
        (false = true ∧ c ∈ digits) ∨ (false = true ∧ c ∈ punctuationSet) :=
  C1_generate_password_ok 1 true false false false (fun _ => 0) (by decide) (by decide)

/-- C2: `get_character_set` returns exactly the concatenation, in the
fixed order upper, lower, digits, symbols, of the selected classes'
ranges (A–Z, a–z, 0–9, the 32 ASCII punctuation characters), and fails
with `invalidSelection` exactly when no class is selected. -/
theorem C2_get_character_set_spec :
    (∀ u l d s, get_character_set u l d s =
      if u || l || d || s then Except.ok (pool u l d s)
      else Except.error Err.invalidSelection) ∧
    (∀ u l d s, pool u l d s =
      (if u then ascii_uppercase else []) ++ (if l then ascii_lowercase else []) ++
        (if d then digits else []) ++ (if s then punctuationSet else [])) ∧
    ascii_uppercase = "ABCDEFGHIJKLMNOPQRSTUVWXYZ".toList ∧
    ascii_lowercase = "abcdefghijklmnopqrstuvwxyz".toList ∧
    digits = "0123456789".toList ∧
    punctuationSet = "!\"#$%&\x27()*+,-./:;<=>?@[\\]^_`\x7b|\x7d~".toList ∧
    ascii_uppercase.length = 26 ∧ ascii_lowercase.length = 26 ∧
    digits.length = 10 ∧ punctuationSet.length = 32 := by
  refine ⟨?_, fun u l d s => rfl, by decide, by decide, by decide, by decide,
    by decide, by decide, by decide, by decide⟩
  intro u l d s
  by_cases h : (u || l || d || s) = true
  · rw [if_pos h]
    simp [get_character_set, pool_ne_nil u l d s h]
  · have h4 : u = false ∧ l = false ∧ d = false ∧ s = false := by
      revert h; cases u <;> cases l <;> cases d <;> cases s <;> decide
    rw [if_neg h]
    simp [get_character_set, (pool_eq_nil_iff u l d s).mpr h4]

/-- C3 counterexample: at length 0 with the all-false selection the code
does NOT fail with the selection error — it raises the length error,
because the length check (line 65) precedes the charset construction
(line 68). -/
theorem C3_counterexample :
    generate_password 0 false false false false (fun _ => 0) ≠
        Except.error Err.invalidSelection ∧
      generate_password 0 false false false false (fun _ => 0) =
        Except.error Err.invalidLength :=
  ⟨fun h => Err.noConfusion (Except.error.inj h), rfl⟩

/-- C3 (amended): with the all-false selection, `generate_password`
fails with `invalidSelection` for every length ≥ 1; for length < 1 the
length check fires first and it fails with `invalidLength` instead. -/
theorem C3_all_false_selection (length : Int) (draw : Nat → Nat) :
    generate_password length false false false false draw =
      if length < 1 then Except.error Err.invalidLength
      else Except.error Err.invalidSelection := by
  by_cases h : length < 1
  · simp [generate_password, h]
  · simp [generate_password, h, get_character_set, pool]

/-- C4: for every selection, `generate_password` with length ≤ 0 fails
with `invalidLength`. -/
theorem C4_invalid_length (length : Int) (u l d s : Bool) (draw : Nat → Nat)
    (h : length < 1) :
    generate_password length u l d s draw = Except.error Err.invalidLength := by
  simp [generate_password, h]

/-- C4 witness: length −3 with all classes selected. -/
theorem C4_witness :
    generate_password (-3) true true true true (fun _ => 0) =
      Except.error Err.invalidLength :=
  C4_invalid_length (-3) true true true true (fun _ => 0) (by decide)

/-- C5: the variety component counts how many of has-upper, has-lower,
has-digit, has-symbol hold of the password itself (symbol = member of
the fixed punctuation set), and contributes 40 / 30 / 15 / 5 points for
4 / 3 / 2 / ≤1 classes, with the corresponding feedback. -/
theorem C5_variety_component (p : List Char) :
    (evaluate_password_strength p).2.1 =
      lengthScore p.length + varietyScore p + entropyScore p.length (charset_size p) ∧
    (has_upper p = true ↔ ∃ c ∈ p, isupper c = true) ∧
    (has_lower p = true ↔ ∃ c ∈ p, islower c = true) ∧
    (has_digit p = true ↔ ∃ c ∈ p, isdigit c = true) ∧
    (has_symbol p = true ↔ ∃ c ∈ p, c ∈ punctuationSet) ∧
    variety_count p =
      (if has_upper p then 1 else 0) + (if has_lower p then 1 else 0) +
        (if has_digit p then 1 else 0) + (if has_symbol p then 1 else 0) ∧
    (variety_count p = 4 → varietyScore p = 40 ∧ varietyFeedback p = []) ∧
    (variety_count p = 3 →
      varietyScore p = 30 ∧ varietyFeedback p = ["記号を追加するとさらに強化されます"]) ∧
    (variety_count p = 2 →
      varietyScore p = 15 ∧ varietyFeedback p = ["より多くの文字種を使用してください"]) ∧
    (variety_count p ≤ 1 →
      varietyScore p = 5 ∧ varietyFeedback p = ["文字種が少なすぎます"]) := by
  refine ⟨rfl, ?_, ?_, ?_, ?_, rfl, ?_, ?_, ?_, ?_⟩
  · simp [has_upper, List.any_eq_true]
  · simp [has_lower, List.any_eq_true]
  · simp [has_digit, List.any_eq_true]
  · simp [has_symbol, List.any_eq_true]
  · intro h; simp [varietyScore, varietyFeedback, h]
  · intro h; simp [varietyScore, varietyFeedback, h]
  · intro h; simp [varietyScore, varietyFeedback, h]
  · intro h
    have h4 : variety_count p ≠ 4 := by omega
    have h3 : variety_count p ≠ 3 := by omega
    have h2 : variety_count p ≠ 2 := by omega
    simp [varietyScore, varietyFeedback, h4, h3, h2]

/-- C5 witness: a lowercase-only password has one class, scoring 5 with
the too-few-classes feedback. -/
theorem C5_witness :
    varietyScore "ab".toList = 5 ∧ varietyFeedback "ab".toList = ["文字種が少なすぎます"] :=
  (C5_variety_component "ab".toList).2.2.2.2.2.2.2.2.2 (by decide)

/-- C6: the length component contributes 40 points for length ≥ 16,
30 for 12–15, 20 for 8–11 and 10 otherwise, with the corresponding
feedback. -/
theorem C6_length_component (p : List Char) :
    (evaluate_password_strength p).2.1 =
      lengthScore p.length + varietyScore p + entropyScore p.length (charset_size p) ∧
    (16 ≤ p.length → lengthScore p.length = 40 ∧ lengthFeedback p.length = []) ∧
    (12 ≤ p.length ∧ p.length ≤ 15 →
      lengthScore p.length = 30 ∧
        lengthFeedback p.length = ["より長いパスワード(16文字以上)を推奨します"]) ∧
    (8 ≤ p.length ∧ p.length ≤ 11 →
      lengthScore p.length = 20 ∧
        lengthFeedback p.length = ["より長いパスワード(12文字以上)を推奨します"]) ∧
    (p.length ≤ 7 →
      lengthScore p.length = 10 ∧
        lengthFeedback p.length = ["パスワードが短すぎます(最低8文字推奨)"]) := by
  refine ⟨rfl, ?_, ?_, ?_, ?_⟩ <;> intro h <;>
    unfold lengthScore lengthFeedback <;> split_ifs <;>
    first | exact ⟨rfl, rfl⟩ | omega

/-- C6 witness: a 12-character password gets 30 length points and the
recommend-16 feedback. -/
theorem C6_witness :
    lengthScore "aaaaaaaaaaaa".toList.length = 30 ∧
      lengthFeedback "aaaaaaaaaaaa".toList.length =
        ["より長いパスワード(16文字以上)を推奨します"] :=
  (C6_length_component "aaaaaaaaaaaa".toList).2.2.1 (by decide)

/-- C8: the returned level is determined from the total score by the
80/60/40 thresholds, and the returned feedback is the triggered advisory
strings joined with " / ", or the single good-password message when none
was triggered. -/
theorem C8_level_and_feedback (p : List Char) :
    (evaluate_password_strength p).1 = levelOf (evaluate_password_strength p).2.1 ∧
    (80 ≤ totalScore p → levelOf (totalScore p) = "非常に強い") ∧
    (60 ≤ totalScore p ∧ totalScore p < 80 → levelOf (totalScore p) = "強い") ∧
    (40 ≤ totalScore p ∧ totalScore p < 60 → levelOf (totalScore p) = "中程度") ∧
    (totalScore p < 40 → levelOf (totalScore p) = "弱い") ∧
    (evaluate_password_strength p).2.2 =
      (if feedbackList p = [] then "良好なパスワードです"
       else String.intercalate " / " (feedbackList p)) ∧
    feedbackList p = lengthFeedback p.length ++ varietyFeedback p := by
  refine ⟨rfl, ?_, ?_, ?_, ?_, rfl, rfl⟩ <;> intro h <;>
    unfold levelOf <;> split_ifs <;> first | rfl | omega

/-- C8 witness: a 16-character password with all four classes scores 100
and is rated very strong. -/
theorem C8_witness : levelOf (totalScore "Ab1!Ab1!Ab1!Ab1!".toList) = "非常に強い" :=
  (C8_level_and_feedback "Ab1!Ab1!Ab1!Ab1!".toList).2.1 (by decide)

/-- C9: `evaluate_password_strength` is deterministic — equal inputs
give the identical (level, score, feedback) triple. -/
theorem C9_deterministic (p q : List Char) (h : p = q) :
    evaluate_password_strength p = evaluate_password_strength q := by
  rw [h]

/-- C9 witness. -/
theorem C9_witness :
    evaluate_password_strength "x1".toList = evaluate_password_strength "x1".toList :=
  C9_deterministic "x1".toList "x1".toList rfl

/-- C10: for every password, including the empty one, the total score
lies between 15 and 100 inclusive (length ≥ 10, variety ≥ 5, entropy
≥ 0; the components cap at 40 + 40 + 20). -/
theorem C10_score_range (p : List Char) :
    15 ≤ (evaluate_password_strength p).2.1 ∧ (evaluate_password_strength p).2.1 ≤ 100 := by
  have h1 := lengthScore_bounds p.length
  have h2 := varietyScore_bounds p
  have h3 := entropyScore_bounds p.length (charset_size p)
  have h4 : 0 ≤ entropyScore p.length (charset_size p) := Nat.zero_le _
  show 15 ≤ totalScore p ∧ totalScore p ≤ 100
  unfold totalScore
  omega

/-- C7: the entropy component uses an effective charset size summing
26 / 26 / 10 / 32 over the classes present in the password itself; it
contributes 0 points when that size is 0, and otherwise 20 / 15 / 10 / 5
points as `length * log2(size)` reaches 80 / 60 / 40 bits or falls
short. -/
theorem C7_entropy_component (p : List Char) :
    (evaluate_password_strength p).2.1 =
      lengthScore p.length + varietyScore p + entropyScore p.length (charset_size p) ∧
    charset_size p =
      (if has_upper p then 26 else 0) + (if has_lower p then 26 else 0) +
        (if has_digit p then 10 else 0) + (if has_symbol p then 32 else 0) ∧
    (charset_size p = 0 → entropyScore p.length (charset_size p) = 0) ∧
    (charset_size p ≠ 0 →
      entropyScore p.length (charset_size p) =
        if (80 : ℝ) ≤ (p.length : ℝ) * Real.logb 2 (charset_size p : ℝ) then 20
        else if (60 : ℝ) ≤ (p.length : ℝ) * Real.logb 2 (charset_size p : ℝ) then 15
        else if (40 : ℝ) ≤ (p.length : ℝ) * Real.logb 2 (charset_size p : ℝ) then 10
        else 5) := by
  refine ⟨rfl, rfl, fun h => by simp [entropyScore, h], fun h => ?_⟩
  have h2 : 2 ≤ charset_size p := le_trans (by omega) (charset_size_ten_le p h)
  have e80 : ((80 : ℝ) ≤ (p.length : ℝ) * Real.logb 2 (charset_size p : ℝ)) ↔
      2 ^ 80 ≤ charset_size p ^ p.length := by
    exact_mod_cast entropy_threshold_iff (charset_size p) p.length 80 h2
  have e60 : ((60 : ℝ) ≤ (p.length : ℝ) * Real.logb 2 (charset_size p : ℝ)) ↔
      2 ^ 60 ≤ charset_size p ^ p.length := by
    exact_mod_cast entropy_threshold_iff (charset_size p) p.length 60 h2
  have e40 : ((40 : ℝ) ≤ (p.length : ℝ) * Real.logb 2 (charset_size p : ℝ)) ↔
      2 ^ 40 ≤ charset_size p ^ p.length := by
    exact_mod_cast entropy_threshold_iff (charset_size p) p.length 40 h2
  unfold entropyScore
  rw [if_neg h]
  simp only [e80, e60, e40]

/-- C7 witness: the lowercase-only password "abcd" has effective charset
size 26 and receives 5 entropy points. -/
theorem C7_witness :
    entropyScore "abcd".toList.length (charset_size "abcd".toList) =
      if (80 : ℝ) ≤ ("abcd".toList.length : ℝ) *
          Real.logb 2 (charset_size "abcd".toList : ℝ) then 20
      else if (60 : ℝ) ≤ ("abcd".toList.length : ℝ) *
          Real.logb 2 (charset_size "abcd".toList : ℝ) then 15
      else if (40 : ℝ) ≤ ("abcd".toList.length : ℝ) *
          Real.logb 2 (charset_size "abcd".toList : ℝ) then 10
      else 5 :=
  (C7_entropy_component "abcd".toList).2.2.2 (by decide)

end PasswordGenerator
